import Mathlib

/-!
# Verification of the sp1 build-orchestration pipeline

A shallow embedding of `crates/build/src/lib.rs`: the build-option model
(`BuildArgs`), the flag/environment translator (`get_program_build_args`,
`get_rust_compiler_flags`), the local command builder (`create_local_command`),
the process runner's exit handling (`execute_command`), and the artifact
resolver (`copy_elf_to_output_dir`).

Modelling conventions:
* Filesystem paths are lists of segments (`List String`).  `pathJoin` mirrors
  Rust's `Path::join` / `Utf8PathBuf::join`: the argument string is split on
  `/` and appended, except that an absolute argument (leading `/`) replaces
  the whole path.
* `unwrap` / `expect` calls that can fail are modelled by an explicit `panic`
  constructor in the outcome type, carrying the panic message.
* Reads of the ambient process environment and of the filesystem inside
  `create_local_command` (the `CC_riscv32im_succinct_zkvm_elf` probe) are
  passed in explicitly as a `HostEnv` record, and the result of
  `program_dir.canonicalize()` is passed in as an `Option`.
-/

/-- `const BUILD_TARGET: &str = "riscv32im-succinct-zkvm-elf";` -/
def BUILD_TARGET : String := "riscv32im-succinct-zkvm-elf"

/-- `const DEFAULT_TAG: &str = "v1.1.0";` -/
def DEFAULT_TAG : String := "v1.1.0"

/-- `const DEFAULT_OUTPUT_DIR: &str = "elf";` -/
def DEFAULT_OUTPUT_DIR : String := "elf"

/-- `const HELPER_TARGET_SUBDIR: &str = "elf-compilation";` -/
def HELPER_TARGET_SUBDIR : String := "elf-compilation"

/-- The `BuildArgs` struct (clap defaults make every field total: the
"optional" strings default to `""`). -/
structure BuildArgs where
  docker : Bool
  tag : String
  features : List String
  no_default_features : Bool
  ignore_rust_version : Bool
  locked : Bool
  binary : String
  elf_name : String
  output_directory : String
deriving Repr, DecidableEq

/-- A path as its list of segments.  An absolute Unix path is represented with
a leading `""` segment, matching splitting on `/` of a string with a leading
slash. -/
abbrev FsPath := List String

/-- Split a character list at every occurrence of `sep` (the semantics of
`String.splitOn` with a one-character separator, restated by structural
recursion so that it evaluates inside the kernel). -/
def splitOnChar (sep : Char) : List Char → List (List Char)
  | [] => [[]]
  | c :: cs =>
    match splitOnChar sep cs with
    | [] => [[]]
    | t :: ts => if c = sep then [] :: t :: ts else (c :: t) :: ts

/-- The `/`-separated segments of a path string. -/
def splitPath (s : String) : FsPath :=
  (splitOnChar '/' s.toList).map (fun cs => String.mk cs)

/-- Whether a Unix path string is absolute (begins with `/`). -/
def isAbsolute (s : String) : Bool :=
  match s.toList with
  | c :: _ => c = '/'
  | [] => false

/-- Rust `Path::join`: splitting the argument on `/` and appending, except an
absolute argument replaces the whole path. -/
def pathJoin (p : FsPath) (s : String) : FsPath :=
  if isAbsolute s then splitPath s else p ++ splitPath s

/-- Render a segment path back to a string (used where the code passes a path
as an environment-variable value). -/
def renderPath (p : FsPath) : String := String.intercalate "/" p

/-- `program_metadata` as consumed by the core: the root package name is
`None` for virtual workspaces (`root_package()` returns `None`). -/
structure Metadata where
  root_package_name : Option String
  target_directory : FsPath
deriving Repr, DecidableEq

/-- `Path::parent` on a segment list: the filesystem root (and the empty
path) have no parent; otherwise drop the last segment. -/
def parentPath (p : FsPath) : Option FsPath :=
  if p = [] then none else some p.dropLast

/-! ## 4.1 Flag/Environment Translator -/

/-- `get_program_build_args` (lib.rs lines 90–121): the cargo argument list,
built by sequential pushes exactly as in the source. -/
def get_program_build_args (args : BuildArgs) : List String :=
  let build_args := ["build", "--release", "--target", BUILD_TARGET]
  let build_args :=
    if args.ignore_rust_version then build_args ++ ["--ignore-rust-version"] else build_args
  let build_args :=
    if args.binary ≠ "" then build_args ++ ["--bin", args.binary] else build_args
  let build_args :=
    if args.features ≠ [] then
      build_args ++ ["--features", String.intercalate "," args.features]
    else build_args
  let build_args :=
    if args.no_default_features then build_args ++ ["--no-default-features"] else build_args
  let build_args :=
    if args.locked then build_args ++ ["--locked"] else build_args
  build_args

/-- The unit-separator delimiter `"\x1f"` used by `CARGO_ENCODED_RUSTFLAGS`. -/
def unitSep : String := "\x1f"

/-- The unit-separator as a character (`0x1F`), for splitting. -/
def unitSepChar : Char := '\x1f'

/-- `get_rust_compiler_flags` (lib.rs lines 124–134): six fixed tokens joined
by the unit separator.  Takes no input, exactly as in the source. -/
def get_rust_compiler_flags : String :=
  String.intercalate unitSep
    ["-C", "passes=loweratomic",
     "-C", "link-arg=-Ttext=0x00200800",
     "-C", "panic=abort"]

/-! ## 4.2 Command Builder (local backend) -/

/-- The ambient host state read by `create_local_command` (lib.rs lines
146–155): whether `CC_riscv32im_succinct_zkvm_elf` is already set in the
caller's environment, the home directory (if any), and whether the default
cross-compiler binary exists at `~/.sp1/bin/riscv32-unknown-elf-gcc`. -/
structure HostEnv where
  cc_var_set : Bool
  home_dir : Option FsPath
  cc_path_exists : Bool
deriving Repr, DecidableEq

/-- The configured, not-yet-started subprocess: working directory, program,
ordered environment overrides and removals, and the argument list. -/
structure CommandSpec where
  program : String
  current_dir : FsPath
  env_sets : List (String × String)
  env_removes : List String
  cmd_args : List String
deriving Repr, DecidableEq

/-- Outcome of building the local command: either a `CommandSpec`, or the
panic raised by `.expect("Failed to canonicalize program directory")`. -/
inductive LocalCmdOutcome where
  | ok (spec : CommandSpec)
  | panic (msg : String)
deriving Repr, DecidableEq

/-- The panic message of the `.expect` on `program_dir.canonicalize()`. -/
def canonicalizePanicMsg : String := "Failed to canonicalize program directory"

/-- `create_local_command` (lib.rs lines 137–174).  `canonical_program_dir?`
is the result of `program_dir.canonicalize()` (`none` = the call failed, which
the source turns into a panic via `.expect`).  The conditional
`CC_riscv32im_succinct_zkvm_elf` default is applied first, then the fixed
`RUSTUP_TOOLCHAIN` / `CARGO_ENCODED_RUSTFLAGS` / `CARGO_TARGET_DIR` overrides
and the `RUSTC` removal, in source order. -/
def create_local_command (args : BuildArgs) (host : HostEnv)
    (canonical_program_dir? : Option FsPath) (program_metadata : Metadata) :
    LocalCmdOutcome :=
  match canonical_program_dir? with
  | none => .panic canonicalizePanicMsg
  | some canonicalized_program_dir =>
    let cc_sets : List (String × String) :=
      if ¬ host.cc_var_set then
        match host.home_dir with
        | some home =>
          if host.cc_path_exists then
            [("CC_riscv32im_succinct_zkvm_elf",
              renderPath (home ++ [".sp1", "bin", "riscv32-unknown-elf-gcc"]))]
          else []
        | none => []
      else []
    .ok
      { program := "cargo"
        current_dir := canonicalized_program_dir
        env_sets := cc_sets ++
          [("RUSTUP_TOOLCHAIN", "succinct"),
           ("CARGO_ENCODED_RUSTFLAGS", get_rust_compiler_flags),
           ("CARGO_TARGET_DIR",
            renderPath (pathJoin program_metadata.target_directory HELPER_TARGET_SUBDIR))]
        env_removes := ["RUSTC"]
        cmd_args := get_program_build_args args }

/-! ## 4.3 Process Runner -/

/-- Control-flow outcome of `execute_command`: normal success, or
`exit(code)` terminating the whole invocation. -/
inductive RunOutcome where
  | ok
  | exitWith (code : Int)
deriving Repr, DecidableEq

/-- The line tag chosen in `execute_command` (lib.rs lines 188–191). -/
def outputTag (docker : Bool) : String :=
  if docker then "[sp1] [docker] " else "[sp1] "

/-- The exit-status handling and output relay of `execute_command` (lib.rs
lines 177–211), with the child abstracted to its observable behaviour: the
lines it wrote to each stream and its exit status.  `status_code? = some c`
is a child that exited with code `c`; `none` is a child killed by a signal
(`result.code()` returns `None`).  `ExitStatus::success()` holds exactly for
code 0.  Returns the lines the runner prints to stdout and stderr
(`println!("{} {}", msg, line)`) and the control-flow outcome. -/
def execute_command (docker : Bool) (stdout_lines stderr_lines : List String)
    (status_code? : Option Int) : List String × List String × RunOutcome :=
  let msg := outputTag docker
  let relayed_out := stdout_lines.map (fun line => msg ++ " " ++ line)
  let relayed_err := stderr_lines.map (fun line => msg ++ " " ++ line)
  if status_code? = some 0 then
    (relayed_out, relayed_err, .ok)
  else
    (relayed_out, relayed_err, .exitWith (status_code?.getD 1))

/-! ## 4.4 Artifact Resolver -/

/-- Outcome of `copy_elf_to_output_dir`, with the filesystem effects
abstracted to the three computed paths: the toolchain-internal source path,
the destination directory, and the destination path (the function's return
value).  `panic` models the two unchecked `unwrap()` calls. -/
inductive CopyOutcome where
  | ok (original_elf_path : FsPath) (elf_dir : FsPath) (result_elf_path : FsPath)
  | panic (msg : String)
deriving Repr, DecidableEq

/-- Panic message of `Option::unwrap` on `None`. -/
def optionUnwrapPanicMsg : String := "called Option::unwrap() on a None value"

/-- The target-directory suffix (lib.rs lines 223–226): `"elf-compilation"`,
with `"/docker"` appended when building with Docker. -/
def target_dir_suffix (docker : Bool) : String :=
  if docker then HELPER_TARGET_SUBDIR ++ "/" ++ "docker" else HELPER_TARGET_SUBDIR

/-- The source ELF file name (lib.rs lines 230–234): the binary name if
non-empty, otherwise the root package name (`None` here means the source
hits `root_package_name.unwrap()` on `None`). -/
def original_elf_file_name? (args : BuildArgs) (md : Metadata) : Option String :=
  if args.binary ≠ "" then some args.binary else md.root_package_name

/-- The toolchain-internal source path (lib.rs lines 236–241):
`target_directory / suffix / BUILD_TARGET / release / name`. -/
def original_elf_path (args : BuildArgs) (md : Metadata) (name : String) : FsPath :=
  pathJoin (pathJoin (pathJoin (pathJoin md.target_directory
    (target_dir_suffix args.docker)) BUILD_TARGET) "release") name

/-- The destination ELF file name (lib.rs lines 246–254): `elf_name` if
non-empty, else the binary name if non-empty, else `BUILD_TARGET`.  Reads
only the options, never the metadata. -/
def dest_elf_name (args : BuildArgs) : String :=
  if args.elf_name ≠ "" then args.elf_name
  else if args.binary ≠ "" then args.binary
  else BUILD_TARGET

/-- `copy_elf_to_output_dir` (lib.rs lines 214–264), with `fs::create_dir_all`
and `fs::copy` abstracted away (they do not affect the computed paths).  The
two `unwrap()` calls — on the root package name and on
`target_directory.parent()` — become `panic` outcomes, in source order. -/
def copy_elf_to_output_dir (args : BuildArgs) (program_metadata : Metadata) :
    CopyOutcome :=
  match original_elf_file_name? args program_metadata with
  | none => .panic optionUnwrapPanicMsg
  | some name =>
    let src := original_elf_path args program_metadata name
    let elf_name := dest_elf_name args
    match parentPath program_metadata.target_directory with
    | none => .panic optionUnwrapPanicMsg
    | some parent =>
      let elf_dir := pathJoin parent args.output_directory
      .ok src elf_dir (pathJoin elf_dir elf_name)

/-! ## Sample inputs used by witnesses and counterexamples -/

/-- The clap-default options (the `Default for BuildArgs` impl). -/
def defaultArgs : BuildArgs :=
  { docker := false, tag := DEFAULT_TAG, features := [],
    no_default_features := false, ignore_rust_version := false, locked := false,
    binary := "", elf_name := "", output_directory := DEFAULT_OUTPUT_DIR }

/-- Metadata of a workspace at `/ws` with root package `demo`. -/
def sampleMd : Metadata := { root_package_name := some "demo", target_directory := ["", "ws", "target"] }

/-- Metadata of an unnamed virtual workspace (no root package). -/
def noPkgMd : Metadata := { root_package_name := none, target_directory := ["", "ws", "target"] }

/-- A host on which `CC_riscv32im_succinct_zkvm_elf` is already set, so the
convenience C-compiler default does not fire. -/
def sampleHost : HostEnv := { cc_var_set := true, home_dir := none, cc_path_exists := false }

/-- A host on which the C-compiler variable is unset and the default
cross-compiler exists under the home directory. -/
def ccHost : HostEnv := { cc_var_set := false, home_dir := some ["", "home", "u"], cc_path_exists := true }

/-- The command `create_local_command` produces for `defaultArgs`, `sampleHost`,
canonical program directory `/p` and `sampleMd` (checked by `decide` at its
uses). -/
def sampleSpec : CommandSpec :=
  { program := "cargo", current_dir := ["", "p"],
    env_sets := [("RUSTUP_TOOLCHAIN", "succinct"),
                 ("CARGO_ENCODED_RUSTFLAGS", get_rust_compiler_flags),
                 ("CARGO_TARGET_DIR", "/ws/target/elf-compilation")],
    env_removes := ["RUSTC"],
    cmd_args := ["build", "--release", "--target", "riscv32im-succinct-zkvm-elf"] }

/-- Options naming an absolute binary path (`--bin /a`). -/
def absBinArgs : BuildArgs := { defaultArgs with binary := "/a" }

/-- The keys of the environment overrides of a built command (empty on the
panic outcome). -/
def envSetKeys : LocalCmdOutcome → List String
  | .ok spec => spec.env_sets.map Prod.fst
  | .panic _ => []

/-- Metadata whose target directory is the filesystem root, so it has no
parent. -/
def rootMd : Metadata := { root_package_name := some "demo", target_directory := [] }

/-! ## Theorems -/

/-- The argument list of `get_program_build_args`, as one concatenation of its
conditional segments (proved from the sequential-push definition). -/
theorem get_program_build_args_eq (args : BuildArgs) :
    get_program_build_args args =
      ["build", "--release", "--target", BUILD_TARGET]
        ++ (if args.ignore_rust_version then ["--ignore-rust-version"] else [])
        ++ (if args.binary ≠ "" then ["--bin", args.binary] else [])
        ++ (if args.features ≠ [] then
              ["--features", String.intercalate "," args.features] else [])
        ++ (if args.no_default_features then ["--no-default-features"] else [])
        ++ (if args.locked then ["--locked"] else []) := by
  simp only [get_program_build_args]
  split <;> split <;> split <;> split <;> split <;> simp

/-- C6: for a non-empty feature list the translated argument list contains
`--features` immediately followed by the comma-join of the features in the
supplied order (no sorting, no deduplication — the join is of the list exactly
as given); for an empty feature list no `--features` flag is emitted (the
token can then only appear as the user's own binary name, hence the guard
`args.binary ≠ "--features"` on the membership form). -/
theorem c6_features_flag (args : BuildArgs) :
    (args.features ≠ [] →
      ∃ l r, get_program_build_args args =
        l ++ ["--features", String.intercalate "," args.features] ++ r) ∧
    (args.features = [] → args.binary ≠ "--features" →
      "--features" ∉ get_program_build_args args) := by
  constructor
  · intro hf
    refine ⟨["build", "--release", "--target", BUILD_TARGET]
        ++ (if args.ignore_rust_version then ["--ignore-rust-version"] else [])
        ++ (if args.binary ≠ "" then ["--bin", args.binary] else []),
      (if args.no_default_features then ["--no-default-features"] else [])
        ++ (if args.locked then ["--locked"] else []), ?_⟩
    rw [get_program_build_args_eq]
    simp [hf]
  · intro hf hb
    have hb' : "--features" ≠ args.binary := fun h => hb h.symm
    rw [get_program_build_args_eq]
    split_ifs <;> simp_all [hf, BUILD_TARGET]

/-- C6 witness: instantiation at concrete option sets, discharging both
hypothesis branches. -/
theorem c6_features_flag_witness :
    (∃ l r, get_program_build_args { defaultArgs with features := ["b", "a", "b"] } =
      l ++ ["--features", "b,a,b"] ++ r) ∧
    "--features" ∉ get_program_build_args defaultArgs := by
  constructor
  · have h := (c6_features_flag { defaultArgs with features := ["b", "a", "b"] }).1 (by decide)
    simpa using h
  · exact (c6_features_flag defaultArgs).2 rfl (by decide)

/-- C5: for every `BuildArgs`, host state, program directory and metadata, the
`CARGO_ENCODED_RUSTFLAGS` value of the built local command is the fixed string
`get_rust_compiler_flags` (a closed constant, hence independent of every user
option), and splitting that string on the unit-separator character `0x1F`
yields exactly the 6 fixed tokens. -/
theorem c5_encoded_flags_fixed (args : BuildArgs) (host : HostEnv)
    (canonical_program_dir? : Option FsPath) (md : Metadata) (s : CommandSpec)
    (h : create_local_command args host canonical_program_dir? md = .ok s) :
    List.lookup "CARGO_ENCODED_RUSTFLAGS" s.env_sets = some get_rust_compiler_flags ∧
    (splitOnChar unitSepChar get_rust_compiler_flags.toList).map (fun cs => String.mk cs) =
      ["-C", "passes=loweratomic", "-C", "link-arg=-Ttext=0x00200800", "-C", "panic=abort"] ∧
    (splitOnChar unitSepChar get_rust_compiler_flags.toList).length = 6 := by
  refine ⟨?_, by decide, by decide⟩
  cases canonical_program_dir? with
  | none => simp [create_local_command] at h
  | some d =>
    simp only [create_local_command] at h
    cases h
    by_cases hc : host.cc_var_set
    · simp [hc, List.lookup]
    · cases hh : host.home_dir with
      | none => simp [hc, hh, List.lookup]
      | some home =>
        by_cases he : host.cc_path_exists
        · simp [hc, hh, he, List.lookup]
        · simp [hc, hh, he, List.lookup]

/-- C5 witness: the lookup at a concrete command. -/
theorem c5_encoded_flags_fixed_witness :
    List.lookup "CARGO_ENCODED_RUSTFLAGS" sampleSpec.env_sets = some get_rust_compiler_flags :=
  (c5_encoded_flags_fixed defaultArgs sampleHost (some ["", "p"]) sampleMd sampleSpec
    (by decide)).1

/-- C4: the runner's exit handling.  On exit code `c ≠ 0` the whole invocation
terminates with `c` itself; on a signal-killed child (`result.code() = None`)
it terminates with code 1; on code 0 it returns success.  The runner's entire
output consists of the relayed child lines (one tagged line per child line on
each stream, per-stream order preserved) — it emits no message of its own on
failure. -/
theorem c4_exit_status_handling (docker : Bool)
    (stdout_lines stderr_lines : List String) (status_code? : Option Int) :
    ((∀ code, status_code? = some code → code ≠ 0 →
        (execute_command docker stdout_lines stderr_lines status_code?).2.2 =
          .exitWith code) ∧
     (status_code? = none →
        (execute_command docker stdout_lines stderr_lines status_code?).2.2 =
          .exitWith 1) ∧
     (status_code? = some 0 →
        (execute_command docker stdout_lines stderr_lines status_code?).2.2 = .ok)) ∧
    (execute_command docker stdout_lines stderr_lines status_code?).1 =
      stdout_lines.map (fun line => outputTag docker ++ " " ++ line) ∧
    (execute_command docker stdout_lines stderr_lines status_code?).2.1 =
      stderr_lines.map (fun line => outputTag docker ++ " " ++ line) := by
  unfold execute_command
  refine ⟨⟨?_, ?_, ?_⟩, ?_, ?_⟩
  · intro code hc hne
    subst hc
    simp [hne]
  · intro hc
    subst hc
    simp
  · intro hc
    subst hc
    simp
  · split <;> rfl
  · split <;> rfl

/-- C4 witness: a child that exited with code 2 after writing a diagnostic
line. -/
theorem c4_exit_status_handling_witness :
    (execute_command false ["out line"] ["error[E0001]"] (some 2)).2.2 =
      RunOutcome.exitWith 2 :=
  (c4_exit_status_handling false ["out line"] ["error[E0001]"] (some 2)).1.1 2 rfl
    (by decide)

/-- C7 counterexample: on a host where `CC_riscv32im_succinct_zkvm_elf` is not
already set and the default cross-compiler exists under the home directory,
the built command overrides FOUR environment variables, not exactly three —
the conditional C-compiler default (lib.rs lines 146–155) is a fourth
override the claim does not account for. -/
theorem c7_env_overrides_counterexample :
    envSetKeys (create_local_command defaultArgs ccHost (some ["", "p"]) sampleMd) =
      ["CC_riscv32im_succinct_zkvm_elf", "RUSTUP_TOOLCHAIN",
       "CARGO_ENCODED_RUSTFLAGS", "CARGO_TARGET_DIR"] ∧
    (envSetKeys (create_local_command defaultArgs ccHost (some ["", "p"]) sampleMd)).length
      = 4 := by
  decide

/-- C7 (amended): the local command always overrides `RUSTUP_TOOLCHAIN` (to
`succinct`), `CARGO_ENCODED_RUSTFLAGS` (to the fixed encoded flags) and
`CARGO_TARGET_DIR` (to the target directory plus the dedicated sub-directory),
and unsets `RUSTC`; additionally it sets `CC_riscv32im_succinct_zkvm_elf`
exactly when that variable is not already set, a home directory exists, and
the default cross-compiler binary is present — so the override count is three
exactly when that convenience default does not fire. -/
theorem c7_env_overrides_amended (args : BuildArgs) (host : HostEnv)
    (canonical_program_dir? : Option FsPath) (md : Metadata) (s : CommandSpec)
    (h : create_local_command args host canonical_program_dir? md = .ok s) :
    s.env_sets.map Prod.fst =
      (if host.cc_var_set = false ∧ host.home_dir.isSome = true ∧
          host.cc_path_exists = true
        then ["CC_riscv32im_succinct_zkvm_elf"] else []) ++
      ["RUSTUP_TOOLCHAIN", "CARGO_ENCODED_RUSTFLAGS", "CARGO_TARGET_DIR"] ∧
    s.env_removes = ["RUSTC"] ∧
    List.lookup "RUSTUP_TOOLCHAIN" s.env_sets = some "succinct" ∧
    List.lookup "CARGO_ENCODED_RUSTFLAGS" s.env_sets = some get_rust_compiler_flags ∧
    List.lookup "CARGO_TARGET_DIR" s.env_sets =
      some (renderPath (pathJoin md.target_directory HELPER_TARGET_SUBDIR)) := by
  cases canonical_program_dir? with
  | none => simp [create_local_command] at h
  | some d =>
    simp only [create_local_command] at h
    cases h
    by_cases hc : host.cc_var_set
    · simp [hc, List.lookup]
    · cases hh : host.home_dir with
      | none => simp [hc, hh, List.lookup]
      | some home =>
        by_cases he : host.cc_path_exists
        · simp [hc, hh, he, List.lookup]
        · simp [hc, hh, he, List.lookup]

/-- C7 witness: the amended theorem at a host where the C-compiler default
does not fire. -/
theorem c7_env_overrides_amended_witness :
    sampleSpec.env_removes = ["RUSTC"] :=
  (c7_env_overrides_amended defaultArgs sampleHost (some ["", "p"]) sampleMd sampleSpec
    (by decide)).2.1

/-- C8 counterexample: when `program_dir.canonicalize()` fails, the command
builder does not return a structured `ConfigurationError` — it aborts with the
panic of `.expect("Failed to canonicalize program directory")` (lib.rs line
144); the code has no error-return path at all here. -/
theorem c8_canonicalize_counterexample :
    create_local_command defaultArgs sampleHost none sampleMd =
      LocalCmdOutcome.panic canonicalizePanicMsg := by
  decide

/-- C8 (amended): for every option set, host state and metadata, an
unresolvable program directory makes `create_local_command` abort with the
`expect` panic (an uncontrolled abort), not a structured error. -/
theorem c8_canonicalize_amended (args : BuildArgs) (host : HostEnv) (md : Metadata) :
    create_local_command args host none md = LocalCmdOutcome.panic canonicalizePanicMsg :=
  rfl

/-- `pathJoin` with a relative argument appends its segments. -/
theorem pathJoin_not_abs (p : FsPath) (s : String) (h : isAbsolute s = false) :
    pathJoin p s = p ++ splitPath s := by
  simp [pathJoin, h]

/-- `copy_elf_to_output_dir`, unfolded into its case structure: panic when the
source name is unresolvable, panic when the target directory has no parent,
otherwise the three computed paths. -/
theorem copy_elf_eq (args : BuildArgs) (md : Metadata) :
    copy_elf_to_output_dir args md =
      match original_elf_file_name? args md, parentPath md.target_directory with
      | none, _ => .panic optionUnwrapPanicMsg
      | some _, none => .panic optionUnwrapPanicMsg
      | some name, some parent =>
        .ok (original_elf_path args md name) (pathJoin parent args.output_directory)
          (pathJoin (pathJoin parent args.output_directory) (dest_elf_name args)) := by
  cases ho : original_elf_file_name? args md with
  | none => simp [copy_elf_to_output_dir, ho]
  | some name =>
    cases hp : parentPath md.target_directory with
    | none => simp [copy_elf_to_output_dir, ho, hp]
    | some parent => simp [copy_elf_to_output_dir, ho, hp]

/-- C1 counterexample: with an empty binary name and no root package (an
unnamed virtual workspace), the resolver does not return a structured
`MissingPackageNameError` — it aborts with the panic of
`root_package_name.unwrap()` (lib.rs line 233); the code has no error-return
path for this case at all. -/
theorem c1_missing_package_counterexample :
    copy_elf_to_output_dir defaultArgs noPkgMd =
      CopyOutcome.panic optionUnwrapPanicMsg := by
  decide

/-- C1 (amended): the source ELF name is `binary` when non-empty, else the
root package name; when the binary name is empty and the root package is
absent the resolver aborts with an uncontrolled `unwrap` panic, not a
structured error. -/
theorem c1_source_name_amended (args : BuildArgs) (md : Metadata) :
    (args.binary = "" → md.root_package_name = none →
      copy_elf_to_output_dir args md = .panic optionUnwrapPanicMsg) ∧
    (args.binary ≠ "" → ∀ src dir res,
      copy_elf_to_output_dir args md = .ok src dir res →
      src = original_elf_path args md args.binary) ∧
    (args.binary = "" → ∀ p, md.root_package_name = some p → ∀ src dir res,
      copy_elf_to_output_dir args md = .ok src dir res →
      src = original_elf_path args md p) := by
  refine ⟨?_, ?_, ?_⟩
  · intro h1 h2
    rw [copy_elf_eq]
    have hname : original_elf_file_name? args md = none := by
      simp [original_elf_file_name?, h1, h2]
    rw [hname]
  · intro hb src dir res h
    have hname : original_elf_file_name? args md = some args.binary := by
      simp [original_elf_file_name?, hb]
    rw [copy_elf_eq, hname] at h
    cases hp : parentPath md.target_directory with
    | none => rw [hp] at h; cases h
    | some parent => rw [hp] at h; cases h; rfl
  · intro h1 p h2 src dir res h
    have hname : original_elf_file_name? args md = some p := by
      simp [original_elf_file_name?, h1, h2]
    rw [copy_elf_eq, hname] at h
    cases hp : parentPath md.target_directory with
    | none => rw [hp] at h; cases h
    | some parent => rw [hp] at h; cases h; rfl

/-- C1 witness: the panic branch at an unnamed virtual workspace, and the
package-name branch at package `demo`. -/
theorem c1_source_name_amended_witness :
    copy_elf_to_output_dir defaultArgs noPkgMd = CopyOutcome.panic optionUnwrapPanicMsg ∧
    ["", "ws", "target", "elf-compilation", "riscv32im-succinct-zkvm-elf", "release",
        "demo"] =
      original_elf_path defaultArgs sampleMd "demo" := by
  constructor
  · exact (c1_source_name_amended defaultArgs noPkgMd).1 rfl rfl
  · exact (c1_source_name_amended defaultArgs sampleMd).2.2 rfl "demo" rfl
      ["", "ws", "target", "elf-compilation", "riscv32im-succinct-zkvm-elf", "release",
        "demo"]
      ["", "ws", "elf"] ["", "ws", "elf", "riscv32im-succinct-zkvm-elf"] (by decide)

/-- C2: the destination file name is `elf_name` when non-empty, else the
binary name when non-empty, else the fixed target identifier `BUILD_TARGET`;
`dest_elf_name` reads only the options — it takes no metadata argument, so the
destination name never depends on the package name, even when both `elf_name`
and `binary` are empty — and every successful resolution ends in
`dest_elf_name`. -/
theorem c2_dest_name_resolution (args : BuildArgs) (md : Metadata) :
    (args.elf_name ≠ "" → dest_elf_name args = args.elf_name) ∧
    (args.elf_name = "" → args.binary ≠ "" → dest_elf_name args = args.binary) ∧
    (args.elf_name = "" → args.binary = "" → dest_elf_name args = BUILD_TARGET) ∧
    (∀ src dir res, copy_elf_to_output_dir args md = .ok src dir res →
      res = pathJoin dir (dest_elf_name args)) := by
  refine ⟨fun h => by simp [dest_elf_name, h],
    fun h1 h2 => by simp [dest_elf_name, h1, h2],
    fun h1 h2 => by simp [dest_elf_name, h1, h2], ?_⟩
  intro src dir res h
  rw [copy_elf_eq] at h
  cases ho : original_elf_file_name? args md with
  | none => rw [ho] at h; cases h
  | some name =>
    rw [ho] at h
    cases hp : parentPath md.target_directory with
    | none => rw [hp] at h; cases h
    | some parent => rw [hp] at h; cases h; rfl

/-- C2 witness: the three precedence branches and the destination path at the
spec's own scenario (`binary=""`, `elf_name=""`, package `demo`). -/
theorem c2_dest_name_resolution_witness :
    dest_elf_name { defaultArgs with elf_name := "out.elf", binary := "b" } = "out.elf" ∧
    dest_elf_name defaultArgs = BUILD_TARGET ∧
    ["", "ws", "elf", "riscv32im-succinct-zkvm-elf"] =
      pathJoin ["", "ws", "elf"] (dest_elf_name defaultArgs) := by
  refine ⟨(c2_dest_name_resolution { defaultArgs with elf_name := "out.elf", binary := "b" }
      sampleMd).1 (by decide),
    (c2_dest_name_resolution defaultArgs sampleMd).2.2.1 rfl rfl,
    (c2_dest_name_resolution defaultArgs sampleMd).2.2.2
      ["", "ws", "target", "elf-compilation", "riscv32im-succinct-zkvm-elf", "release",
        "demo"]
      ["", "ws", "elf"] ["", "ws", "elf", "riscv32im-succinct-zkvm-elf"] (by decide)⟩

/-- C3 counterexample: with `--bin /a` (an absolute binary name), the final
`join` of the file name replaces the whole computed path (Rust `Path::join`
semantics), so toggling the docker flag leaves the source path UNCHANGED —
both builds resolve the source to `/a`, refuting both the one-extra-segment
property and the distinctness of the two paths. -/
theorem c3_docker_toggle_counterexample :
    copy_elf_to_output_dir absBinArgs sampleMd =
      CopyOutcome.ok ["", "a"] ["", "ws", "elf"] ["", "a"] ∧
    copy_elf_to_output_dir { absBinArgs with docker := true } sampleMd =
      CopyOutcome.ok ["", "a"] ["", "ws", "elf"] ["", "a"] := by
  decide

/-- C3 (amended): provided the resolved source file name is not an absolute
path, toggling the docker flag inserts exactly the one segment `"docker"`
after the `HELPER_TARGET_SUBDIR` segment of the toolchain-internal source
path, leaves every other segment unchanged, and the two paths are distinct. -/
theorem c3_docker_toggle_amended (args : BuildArgs) (md : Metadata) (name : String)
    (h : isAbsolute name = false) :
    original_elf_path { args with docker := false } md name =
      md.target_directory ++ [HELPER_TARGET_SUBDIR]
        ++ ([BUILD_TARGET, "release"] ++ splitPath name) ∧
    original_elf_path { args with docker := true } md name =
      md.target_directory ++ [HELPER_TARGET_SUBDIR]
        ++ (["docker"] ++ ([BUILD_TARGET, "release"] ++ splitPath name)) ∧
    original_elf_path { args with docker := true } md name ≠
      original_elf_path { args with docker := false } md name := by
  have e1 : ∀ p : FsPath, pathJoin p (target_dir_suffix false) = p ++ [HELPER_TARGET_SUBDIR] := by
    intro p
    rw [pathJoin_not_abs _ _ (by decide)]
    have hs : splitPath (target_dir_suffix false) = [HELPER_TARGET_SUBDIR] := by decide
    rw [hs]
  have e1' : ∀ p : FsPath,
      pathJoin p (target_dir_suffix true) = p ++ [HELPER_TARGET_SUBDIR, "docker"] := by
    intro p
    rw [pathJoin_not_abs _ _ (by decide)]
    have hs : splitPath (target_dir_suffix true) = [HELPER_TARGET_SUBDIR, "docker"] := by
      decide
    rw [hs]
  have e2 : ∀ p : FsPath, pathJoin p BUILD_TARGET = p ++ [BUILD_TARGET] := by
    intro p
    rw [pathJoin_not_abs _ _ (by decide)]
    have hs : splitPath BUILD_TARGET = [BUILD_TARGET] := by decide
    rw [hs]
  have e3 : ∀ p : FsPath, pathJoin p "release" = p ++ ["release"] := by
    intro p
    rw [pathJoin_not_abs _ _ (by decide)]
    have hs : splitPath "release" = ["release"] := by decide
    rw [hs]
  have hfalse : original_elf_path { args with docker := false } md name =
      md.target_directory ++ [HELPER_TARGET_SUBDIR]
        ++ ([BUILD_TARGET, "release"] ++ splitPath name) := by
    unfold original_elf_path
    rw [show ({ args with docker := false } : BuildArgs).docker = false from rfl,
      e1, e2, e3, pathJoin_not_abs _ _ h]
    simp
  have htrue : original_elf_path { args with docker := true } md name =
      md.target_directory ++ [HELPER_TARGET_SUBDIR]
        ++ (["docker"] ++ ([BUILD_TARGET, "release"] ++ splitPath name)) := by
    unfold original_elf_path
    rw [show ({ args with docker := true } : BuildArgs).docker = true from rfl,
      e1', e2, e3, pathJoin_not_abs _ _ h]
    simp
  refine ⟨hfalse, htrue, ?_⟩
  intro heq
  rw [hfalse, htrue] at heq
  have hlen := congrArg List.length heq
  simp [List.length_append] at hlen

/-- C3 witness: the amended theorem at the relative name `demo`. -/
theorem c3_docker_toggle_amended_witness :
    original_elf_path { defaultArgs with docker := true } sampleMd "demo" ≠
      original_elf_path { defaultArgs with docker := false } sampleMd "demo" :=
  (c3_docker_toggle_amended defaultArgs sampleMd "demo" (by decide)).2.2

/-- C10: when the metadata's target directory has no parent, the resolver hits
`target_directory.parent().unwrap()` (lib.rs line 256) and aborts with a
panic — the outcome type of the embedding has no structured-error case because
the source has no error-return path there; when a parent exists, the
destination directory is that parent joined with `output_directory`. -/
theorem c10_parent_unwrap (args : BuildArgs) (md : Metadata) :
    (parentPath md.target_directory = none →
      (args.binary ≠ "" ∨ md.root_package_name ≠ none) →
      copy_elf_to_output_dir args md = .panic optionUnwrapPanicMsg) ∧
    (∀ parent, parentPath md.target_directory = some parent →
      ∀ src dir res, copy_elf_to_output_dir args md = .ok src dir res →
        dir = pathJoin parent args.output_directory) := by
  constructor
  · intro hp _hname
    rw [copy_elf_eq, hp]
    cases original_elf_file_name? args md <;> rfl
  · intro parent hp src dir res h
    rw [copy_elf_eq, hp] at h
    cases ho : original_elf_file_name? args md with
    | none => rw [ho] at h; cases h
    | some name => rw [ho] at h; cases h; rfl

/-- C10 witness: the panic at a root target directory, and the destination
directory `/ws/elf` for target directory `/ws/target`. -/
theorem c10_parent_unwrap_witness :
    copy_elf_to_output_dir { defaultArgs with binary := "b" } rootMd =
      CopyOutcome.panic optionUnwrapPanicMsg ∧
    ["", "ws", "elf"] = pathJoin ["", "ws"] "elf" := by
  constructor
  · exact (c10_parent_unwrap { defaultArgs with binary := "b" } rootMd).1 rfl
      (Or.inl (by decide))
  · exact (c10_parent_unwrap defaultArgs sampleMd).2 ["", "ws"] (by decide)
      ["", "ws", "target", "elf-compilation", "riscv32im-succinct-zkvm-elf", "release",
        "demo"]
      ["", "ws", "elf"] ["", "ws", "elf", "riscv32im-succinct-zkvm-elf"] (by decide)
